import Mathlib

/-!
Verification development for the school admission WhatsApp bot.

The development shallowly embeds the bot's appointment service
(`services/appointmentService.js`), its input sanitizer (`utils/sanitizer.js`)
and the main session handler of `controllers/whatsappController.js` (the
second, current revision contained in the repository) as pure Lean functions.

Modelling conventions:
* timestamps are natural numbers counting seconds since the JS epoch
  (1970-01-01 00:00:00); JS `Date` arithmetic in the source only ever reads and
  writes whole calendar days, hours, minutes and seconds, so a linear
  seconds-based model is faithful; the epoch day (day index 0) is a Thursday,
  so JS `getDay()` becomes `(day + 4) % 7` with 0 = Sunday;
* MySQL `DATETIME` values are compared through the `YYYY-MM-DD HH:MM:SS`
  strings produced by `formatDateTimeMySql`; on second-granularity timestamps
  that string comparison agrees with numeric comparison of the underlying
  seconds, so the embedding compares seconds directly;
* every external call (OpenAI oracle, database reads, locale formatting of
  dates) is an input to the embedding, supplied through an environment record;
  database tables other than `appointments` are only read by the handler, so
  their query results are environment fields, while the `appointments` table is
  carried as an explicit list because the handler also writes it;
* JS exceptions of the `try`/`catch` blocks are modelled with `Except` or with
  explicit failure flags in the environment, as noted at each definition.
-/

/-! ## utils/sanitizer.js and small JS string helpers -/

/-- Character class of `sanitizeInput`: the regex `[^a-zA-Z0-9 .,!?@]` deletes
every character that this predicate rejects. -/
def allowedChar (c : Char) : Bool :=
  (('a' ≤ c && c ≤ 'z') || ('A' ≤ c && c ≤ 'Z') || ('0' ≤ c && c ≤ '9')
    || c = ' ' || c = '.' || c = ',' || c = '!' || c = '?' || c = '@')

/-- Whitespace removed by JS `String.prototype.trim`. -/
def jsSpace (c : Char) : Bool :=
  (c = ' ' || c = '\t' || c = '\n' || c = '\r' || c = '\x0b' || c = '\x0c')

/-- JS `trim` on a character list: drop whitespace at both ends. -/
def jsTrimList (l : List Char) : List Char :=
  ((l.dropWhile jsSpace).reverse.dropWhile jsSpace).reverse

/-- JS `s.trim()`. -/
def jsTrimS (s : String) : String :=
  String.mk (jsTrimList s.data)

/-- utils/sanitizer.js `sanitizeInput`:
`input.replace(/[^a-zA-Z0-9 .,!?@]/g, '').trim()`. -/
def sanitizeInput (s : String) : String :=
  String.mk (jsTrimList (s.data.filter allowedChar))

/-- JS `s.toLowerCase()` (the source only ever compares ASCII keywords). -/
def jsToLower (s : String) : String :=
  String.mk (s.data.map Char.toLower)

/-- Test whether `pre` is a prefix of `s`, as in JS `s.startsWith(pre)`. -/
def strStartsWith (s pre : String) : Bool :=
  pre.data.isPrefixOf s.data

/-- JS `s.substring(n)`. -/
def strDropN (n : Nat) (s : String) : String :=
  String.mk (s.data.drop n)

/-- Numeric value of a list of decimal digit characters. -/
def digitsToNat (l : List Char) : Nat :=
  l.foldl (fun acc c => acc * 10 + (c.toNat - '0'.toNat)) 0

/-- First maximal run of decimal digits in a character list, as matched by the
JS regex `/\d+/`; `none` when the list has no digit. -/
def firstDigitRun : List Char → Option (List Char)
  | [] => none
  | c :: cs => if c.isDigit then some (c :: cs.takeWhile Char.isDigit) else firstDigitRun cs

/-- JS `str.match(/\d+/)` followed by `parseInt(match[0], 10)`; `none` models a
failed match (the source then stores `null`). -/
def firstNumber (s : String) : Option Int :=
  (firstDigitRun s.data).map (fun l => (digitsToNat l : Int))

/-- JS `parseInt(s, 10)` on an already-trimmed string: an optional sign
followed by at least one leading digit; anything else is `NaN` (`none`). -/
def jsParseInt (s : String) : Option Int :=
  match s.data with
  | '-' :: rest =>
      let run := rest.takeWhile Char.isDigit
      if run.isEmpty then none else some (-(digitsToNat run : Int))
  | '+' :: rest =>
      let run := rest.takeWhile Char.isDigit
      if run.isEmpty then none else some (digitsToNat run : Int)
  | l =>
      let run := l.takeWhile Char.isDigit
      if run.isEmpty then none else some (digitsToNat run : Int)

/-- JS `Array.prototype.join('\n')`. -/
def joinNL : List String → String
  | [] => ""
  | [x] => x
  | x :: rest => x ++ "\n" ++ joinNL rest

/-! ## services/appointmentService.js : data model -/

/-- Row of the `appointments` table as inserted by `saveAppointment`
(`INSERT INTO appointments (id, student_id, appdate, time, purpose, host,
type, forgrade)`); both `appdate` and `time` receive the same formatted
timestamp. `student_id` and `forgrade` may be SQL `NULL` (`none`). -/
structure Appointment where
  id : Int
  student_id : Option Int
  appdate : Nat
  timeCol : Nat
  purpose : String
  host : String
  typeCol : String
  forgrade : Option Int
  deriving DecidableEq, Repr

/-- Number of appointment rows whose `appdate` equals the given timestamp
(`SELECT COUNT(*) FROM appointments WHERE appdate = ?`). -/
def apptCountAt (appts : List Appointment) (t : Nat) : Nat :=
  (appts.filter (fun a => a.appdate == t)).length

/-- Number of appointment rows inside the widened booking window
(`SELECT COUNT(*) AS cnt FROM appointments WHERE appdate >= ? AND appdate <= ?`
with bounds `slotDatetime ± 1000 ms`, which at second granularity is the
inclusive window `[t - 1, t + 1]`). -/
def conflictWindowCount (appts : List Appointment) (t : Nat) : Nat :=
  (appts.filter (fun a => decide (t - 1 ≤ a.appdate) && decide (a.appdate ≤ t + 1))).length

/-- Result of `SELECT MAX(id) AS maxId FROM appointments FOR UPDATE` followed
by the JS coercion `(idRows[0].maxId || 0)`: SQL `MAX` of an empty table is
`NULL`, which `|| 0` turns into `0`; a present value `0` is also coerced to
`0`, which coincides with keeping it. -/
def maxApptId (appts : List Appointment) : Int :=
  ((appts.map (fun a => a.id)).max?).getD 0

/-- Appointment row built by the `INSERT` of `saveAppointment`. -/
def newApptRow (appts : List Appointment) (studentId : Option Int) (t : Nat)
    (purpose typeArg : String) (forgrade : Option Int) : Appointment :=
  { id := maxApptId appts + 1
    student_id := studentId
    appdate := t
    timeCol := t
    purpose := purpose
    host := "IvyBot"
    typeCol := typeArg
    forgrade := forgrade }

/-! ## services/appointmentService.js : saveAppointment -/

/-- Steps of `saveAppointment` at which an external failure can strike:
acquiring the pool connection, opening the transaction, and the three queries
plus the commit inside the `try` block. -/
inductive SaveStep where
  | getConn | beginTx | qCount | qMaxId | qInsert | qCommit
  deriving DecidableEq, Repr

/-- Embedding of `saveAppointment(studentId, slotDatetime, purpose, type,
forgrade)` with an explicit failure schedule. `pool.getConnection()` is awaited
before the `try` block, so its rejection propagates to the caller
(`Except.error`). Every failure inside the `try` block reaches the `catch`,
which rolls the transaction back and returns `false` with the table unchanged
(the model takes `rollback` itself to succeed). With no failure the function
re-checks the ±1 second window, and either aborts with `false` or inserts one
row with identifier `MAX(id) + 1` and returns `true`. -/
def saveAppointmentE (fail : SaveStep → Bool) (appts : List Appointment)
    (studentId : Option Int) (slotDatetime : Nat) (purpose typeArg : String)
    (forgrade : Option Int) : Except Unit (Bool × List Appointment) :=
  if fail .getConn then .error ()
  else if fail .beginTx then .ok (false, appts)
  else if fail .qCount then .ok (false, appts)
  else if conflictWindowCount appts slotDatetime > 0 then .ok (false, appts)
  else if fail .qMaxId then .ok (false, appts)
  else if fail .qInsert then .ok (false, appts)
  else if fail .qCommit then .ok (false, appts)
  else .ok (true, appts ++ [newApptRow appts studentId slotDatetime purpose typeArg forgrade])

/-- Failure-free run of `saveAppointment`. -/
def saveAppointment (appts : List Appointment) (studentId : Option Int)
    (slotDatetime : Nat) (purpose typeArg : String) (forgrade : Option Int) :
    Bool × List Appointment :=
  if conflictWindowCount appts slotDatetime > 0 then (false, appts)
  else (true, appts ++ [newApptRow appts studentId slotDatetime purpose typeArg forgrade])

/-! ## services/appointmentService.js : getAvailableSlots -/

/-- Day enumeration of the `while (current < endDate)` loop, stepping
`current` by one calendar day. The first argument is structural fuel; the
source loop runs for at most four iterations (the window spans under five
days), and `whileDays_fuel` below shows any fuel of at least five gives the
same list, so the fuelled function embeds the unbounded loop. -/
def whileDays : Nat → Nat → Nat → List Nat
  | 0, _, _ => []
  | fuel + 1, current, endD =>
      if current < endD then current :: whileDays fuel (current + 86400) endD else []

/-- Inner two `for` loops: half-hour marks from 08:00 up to and excluding
15:00 on the day starting at `dayStart` (hours 8..14, minutes 0 and 30). -/
def daySlots (dayStart : Nat) : List Nat :=
  (List.range 7).flatMap (fun i =>
    [dayStart + (8 + i) * 3600, dayStart + (8 + i) * 3600 + 1800])

/-- Loop body for one candidate day: keep the day only when its JS weekday is
Sunday (0) through Thursday (4); on a kept day keep the half-hour marks that
lie strictly after `now` and have no appointment row at exactly that
timestamp. -/
def dayBody (now : Nat) (appts : List Appointment) (cur : Nat) : List Nat :=
  if (cur / 86400 + 4) % 7 ≤ 4 then
    (daySlots cur).filter (fun s => decide (now < s) && (apptCountAt appts s == 0))
  else []

/-- Embedding of `getAvailableSlots(grade)`. `startDate` is midnight of
tomorrow; `endDate` adds three calendar days and then `setHours(23,59,59,999)`
(the sub-second part is irrelevant at the midnight comparison points, so the
model uses `+ 86399` seconds). The `grade` argument only feeds the unused
`section` computation and never influences the result. Database errors while
checking one slot would mark it booked; the model runs without such errors. -/
def getAvailableSlots (grade : String) (now : Nat) (appts : List Appointment) : List Nat :=
  let startDate := (now / 86400 + 1) * 86400
  let endDate := startDate + 3 * 86400 + 86399
  (whileDays 5 startDate endDate).flatMap (dayBody now appts)

/-- Slot list described by the specification text, parameterised by the
number of enumerated calendar days: enumerate `numDays` calendar days starting
tomorrow, keep Sunday–Thursday days, enumerate the half-hour marks from 08:00
up to and excluding 15:00, keep candidates strictly later than `now` with no
appointment row at that exact timestamp, in chronological order. The claim
states `numDays = 3`. -/
def claimSlots (numDays : Nat) (now : Nat) (appts : List Appointment) : List Nat :=
  ((List.range numDays).map (fun k => (now / 86400 + 1 + k) * 86400)).flatMap
    (dayBody now appts)

/-! ## controllers/whatsappController.js : data model of a session -/

/-- Appointment row as read back by queries (`checkExistingAppointment`,
`getAllFutureAppointments`); only the `appdate` column is consumed by the
handler. -/
structure ApptRow where
  appdate : Nat
  deriving DecidableEq, Repr

/-- Joined `student` × `studentcontactinfo` row returned by the
existing-admission queries; columns may be SQL `NULL` (`none`). -/
structure StudentRow where
  id : Int
  displayname : Option String
  email : Option String
  grade : Option Int
  semester : Option Int
  referral : Option String
  deriving DecidableEq, Repr

/-- Value stored in `session.data.pendingSlot`: the meeting_show_slots case
stores the chosen slot's JS `Date` object (`session.data.pendingSlot =
appointmentDateTime`). -/
inductive PendingSlot where
  | date (t : Nat)
  deriving DecidableEq, Repr

/-- The mutable `session.data` record; absent JS properties are `none`. -/
structure SessionData where
  displayname : Option String := none
  email : Option String := none
  grade : Option Int := none
  semester : Option Int := none
  referral : Option String := none
  studentId : Option Int := none
  detailToUpdate : Option String := none
  slotsList : Option String := none
  pendingSlot : Option PendingSlot := none
  existingAppointmentDate : Option Nat := none
  existingAppointments : List ApptRow := []
  deriving DecidableEq, Repr

/-- A session object of the `userSessions` map. -/
structure Session where
  state : String
  previousState : Option String := none
  intentDisabled : Bool := false
  checkedExistingData : Bool := false
  checkedExistingAppointment : Bool := false
  data : SessionData := {}
  deriving DecidableEq, Repr

/-- Gateway (database) writes performed by the handler, recorded as a trace. -/
inductive DbWrite where
  | updateStudentContact (studentId : Option Int) (email : Option String) (mobile : String)
  | updateStudent (studentId : Option Int) (d : SessionData)
  | insertStudent (id : Int) (d : SessionData)
  | insertStudentContact (id : Int) (studentId : Int) (email : Option String) (mobile : String)
  | insertAppointment (a : Appointment)
  | saveUserMessage (userId msg : String)
  deriving DecidableEq, Repr

/-- Results of all external calls made during one handler invocation: the
OpenAI-backed oracle (`aiService`), the read-only database queries, locale
formatting of dates, plus the appointments table and the current time. -/
structure Env where
  yesNoOf : String → String
  validate : String → String → String
  intentOf : String → String → String
  answerOf : String → String
  fmtD : Nat → String
  fmtT : Nat → String
  fmtLoc : Nat → String
  unenrolledByPhone : Option StudentRow
  contactStudentId : Option Int
  futureAppointments : List ApptRow
  unenrolledById : Option StudentRow
  userInfo : Option (String × String)
  maxStudentId : Option Int
  maxContactId : Option Int
  admissionWriteFails : Bool
  existingAppointment : Option ApptRow
  appts : List Appointment
  now : Nat
  rateLimited : Bool := false
  botStart : Nat := 0

/-- Outcome of one `handleSession` invocation. `sessionOut = none` means the
session was deleted; `sessionOut = some s` is the session object left in the
map (JS mutates the stored object in place, so an unchanged result is the
argument itself). -/
structure HSOut where
  messages : List String
  sessionOut : Option Session
  appts : List Appointment
  writes : List DbWrite
  deriving DecidableEq, Repr

/-! ## controllers/whatsappController.js : small helpers -/

/-- JS template interpolation of a SQL value that may be `NULL`. -/
def showN : Option String → String
  | some s => s
  | none => "null"

/-- JS template interpolation of a numeric SQL value that may be `NULL`. -/
def showNI : Option Int → String
  | some n => toString n
  | none => "null"

/-- JS `x || d` for a string field: `null`, `undefined` and `""` give `d`. -/
def showOrS (o : Option String) (d : String) : String :=
  match o with
  | some s => if s == "" then d else s
  | none => d

/-- JS `x || d` for a numeric field: `null`, `undefined` and `0` give `d`. -/
def showOrI (o : Option Int) (d : String) : String :=
  match o with
  | some n => if n == 0 then d else toString n
  | none => d

/-- JS truthiness of a numeric field. -/
def jsTruthyI (o : Option Int) : Bool :=
  match o with
  | some n => n != 0
  | none => false

/-- JS truthiness of a string field. -/
def jsTruthyS (o : Option String) : Bool :=
  match o with
  | some s => s != ""
  | none => false

/-- JS `s.charAt(0).toUpperCase() + s.slice(1)`. -/
def capFirst (s : String) : String :=
  match s.data with
  | [] => ""
  | c :: rest => String.mk (c.toUpper :: rest)

/-- JS `userId.split('@')[0]`. -/
def phoneOf (userId : String) : String :=
  (userId.splitOn "@").headD ""

/-- Helper `isValidValidation(result)`: lowercase, trim, then test for exactly
`"valid"` or the prefix `"valid "`. -/
def isValidValidation (result : String) : Bool :=
  let normalized := jsTrimS (jsToLower result)
  normalized == "valid" || strStartsWith normalized "valid "

/-- Validation type chosen for each field-collection state. -/
def validationTypeForState (state : String) : String :=
  match state with
  | "admission_displayname" => "name"
  | "admission_email" => "email"
  | "admission_grade" => "grade_level"
  | "admission_semester" => "semester"
  | "admission_referral" => "referral_source"
  | _ => "text"

/-- Validation type chosen in `update_detail` for the stored
`detailToUpdate`; a missing detail falls to the default `'text'`. -/
def validationTypeForDetail (detail : Option String) : String :=
  match detail with
  | some "name" => "name"
  | some "email" => "email"
  | some "grade" => "grade_level"
  | some "semester" => "semester"
  | some "referral" => "referral_source"
  | _ => "text"

/-- The `storeKeyMapping[validationType] || validationType` lookup. -/
def storeKeyOf (vt : String) : String :=
  match vt with
  | "name" => "displayname"
  | "email" => "email"
  | "grade_level" => "grade"
  | "semester" => "semester"
  | "referral_source" => "referral"
  | _ => vt

/-- Fixed field order of the admission form:
`switch (session.state)` choosing `nextState`. -/
def nextCollectionState (state : String) : String :=
  match state with
  | "admission_displayname" => "admission_email"
  | "admission_email" => "admission_grade"
  | "admission_grade" => "admission_semester"
  | "admission_semester" => "admission_referral"
  | "admission_referral" => "admission_confirm"
  | _ => ""

/-- Dynamic-key store `session.data[storeKey] = extractedValue` for the
string-valued keys; the wildcard arm is only reachable through the dead
default validation type `'text'`, whose write lands outside the modelled
columns. -/
def setStrField (d : SessionData) (key : String) (v : String) : SessionData :=
  match key with
  | "displayname" => { d with displayname := some v }
  | "email" => { d with email := some v }
  | "referral" => { d with referral := some v }
  | _ => d

/-- Extraction of the raw value from the oracle response: default to the
trimmed user input, but when the response starts with `"valid "` take
`validationRes.substring(6).trim()`. -/
def extractedValueOf (userMessage validationRes : String) : String :=
  if strStartsWith (jsToLower validationRes) "valid " then jsTrimS (strDropN 6 validationRes)
  else jsTrimS userMessage

/-- Session data assembled from a found admission row
(`studentId/displayname/email/grade/semester/referral`, with grade and
semester passed through `x ? parseInt(x, 10) : null` and referral through
`x || 'Unknown'`). -/
def dataFromRow (r : StudentRow) : SessionData :=
  { studentId := some r.id
    displayname := r.displayname
    email := r.email
    grade := if jsTruthyI r.grade then r.grade else none
    semester := if jsTruthyI r.semester then r.semester else none
    referral := if jsTruthyS r.referral then r.referral else some "Unknown" }

/-- Found-information message interpolating the raw row values. -/
def foundInfoRaw (r : StudentRow) : String :=
  "We found your information based on your phone number:\n" ++
  "- Name: " ++ showN r.displayname ++ "\n" ++
  "- Email: " ++ showN r.email ++ "\n" ++
  "- Grade: " ++ showNI r.grade ++ "\n" ++
  "- Semester: " ++ showNI r.semester ++ "\n" ++
  "- Referral: " ++ showN r.referral ++ "\n\n" ++
  "Would you like to use these details? (Reply \"Yes\" to use them, or \"No\" to fill out the form)"

/-- Found-information message of the awaiting_continue resumption, which
interpolates the session data with `|| 'N/A'` fallbacks. -/
def foundInfoNA (d : SessionData) : String :=
  "We found your information based on your phone number:\n" ++
  "- Name: " ++ showOrS d.displayname "N/A" ++ "\n" ++
  "- Email: " ++ showOrS d.email "N/A" ++ "\n" ++
  "- Grade: " ++ showOrI d.grade "N/A" ++ "\n" ++
  "- Semester: " ++ showOrI d.semester "N/A" ++ "\n" ++
  "- Referral: " ++ showOrS d.referral "N/A" ++ "\n\n" ++
  "Would you like to use these details? (Reply \"Yes\" to use them, or \"No\" to fill out the form)"

/-- Pairing of one-based indices with list elements, as produced by the
`map((s, i) => ...)` renderings. -/
def numberFrom : Nat → List Nat → List (Nat × Nat)
  | _, [] => []
  | i, x :: rest => (i, x) :: numberFrom (i + 1) rest

/-- Rendered slot list `${i + 1}. ${dateStr}, ${timeStr}` joined by newlines,
with the locale formatting supplied by the environment. -/
def renderSlotsList (env : Env) (slots : List Nat) : String :=
  joinNL ((numberFrom 1 slots).map (fun p => toString p.1 ++ ". " ++ env.fmtD p.2 ++ ", " ++ env.fmtT p.2))

/-- Utility `getPromptForState(state, sessionData)` of the controller. The
`update_detail` arm reads `sessionData.detailToUpdate.charAt(0)`, which in JS
throws when the detail is absent; the model totalises that dead corner with
the empty string. -/
def getPromptForState (state : String) (d : SessionData) : String :=
  match state with
  | "admission_displayname" =>
      "Please provide your full name. You can type \"exit\" at any time to cancel the process."
  | "admission_email" =>
      "What is your email address? You can type \"exit\" at any time to cancel the process."
  | "admission_grade" =>
      "For which grade are you applying? (e.g., Grade 3). You can type \"exit\" at any time to cancel the process."
  | "admission_semester" =>
      "Which semester are you applying for? (1 or 2). You can type \"exit\" at any time to cancel the process."
  | "admission_referral" =>
      "How did you hear about us? (Twitter, Facebook, Instagram, YouTube, Friend, Other). You can type \"exit\" at any time to cancel the process."
  | "admission_confirm" =>
      if !jsTruthyS d.displayname && !jsTruthyS d.email && !jsTruthyI d.grade
          && !jsTruthyI d.semester && !jsTruthyS d.referral then
        "Let\x27s start the admission process. Please provide your full name. You can type \"exit\" at any time to cancel the process."
      else
        "Please review your details:\n" ++
        "- Name: " ++ showOrS d.displayname "Not provided" ++ "\n" ++
        "- Email: " ++ showOrS d.email "Not provided" ++ "\n" ++
        "- Grade: " ++ showOrI d.grade "Not provided" ++ "\n" ++
        "- Semester: " ++ showOrI d.semester "Not provided" ++ "\n" ++
        "- Referral: " ++ showOrS d.referral "Not provided" ++ "\n\n" ++
        "Are all details correct? (Yes/No) You can type \"exit\" at any time to cancel the process."
  | "admission_change_or_cancel" =>
      "Would you like to change any detail or cancel the admission process? (Reply \"Change\" or \"Cancel\")"
  | "admission_choose_detail_to_change" =>
      "Which detail would you like to change? (Name, Email, Grade, Semester, Referral). You can type \"exit\" at any time to cancel the process."
  | "update_detail" =>
      "Please provide the new value for " ++ capFirst ((d.detailToUpdate).getD "") ++ ". You can type \"exit\" at any time to cancel the process."
  | "meeting_offer" =>
      "Your admission is submitted. Would you like to schedule a meeting now? (Yes/No) You can type \"exit\" at any time to cancel the process."
  | "meeting_show_slots" =>
      "Available slots (8:00 AM–3:00 PM, every 30 min, Sun–Thu):\n" ++
      (d.slotsList).getD "undefined" ++
      "\nPlease choose a slot number. You can type \"exit\" at any time to cancel the process."
  | "awaiting_continue" => "How can I help you today?"
  | "check_existing_appointment" => "Would you like to proceed with the admission process anyway? (Yes/No)"
  | "confirm_existing_data" => "Would you like to use these details? (Yes/No)"
  | "confirm_replace_appointment" => "Do you want to replace the existing appointment? (Yes/No)"
  | "confirm_book_another_appointment" => "Would you like to book another appointment? (Yes/No)"
  | _ => ""

/-! ## controllers/whatsappController.js : handleSession case bodies -/

/-- Case `'confirm_book_another_appointment'`: on "yes" look up an un-enrolled
admission record by phone; found data moves to `confirm_existing_data`, no
data starts the fresh form; any other answer keeps the existing appointments
and deletes the session. -/
def handleConfirmBookAnother (userMessage : String) (s : Session) (env : Env) : HSOut :=
  let yesNo := env.yesNoOf userMessage
  if jsToLower yesNo == "yes" then
    match env.unenrolledByPhone with
    | some r =>
        let s' := { s with data := dataFromRow r, state := "confirm_existing_data",
                           checkedExistingData := true }
        { messages := [foundInfoRaw r], sessionOut := some s', appts := env.appts, writes := [] }
    | none =>
        let s' := { s with state := "admission_displayname", checkedExistingData := true,
                           data := {} }
        { messages := [getPromptForState "admission_displayname" ({} : SessionData)],
          sessionOut := some s', appts := env.appts, writes := [] }
  else
    { messages := ["Okay. Your existing appointments remain scheduled. Let us know if you need anything else."],
      sessionOut := none, appts := env.appts, writes := [] }

/-- Case `'confirm_existing_data'`: "yes" moves to `meeting_offer`, "no" to
`admission_choose_detail_to_change`, anything else re-prompts unchanged. -/
def handleConfirmExistingData (userMessage : String) (s : Session) (env : Env) : HSOut :=
  let yesNo := env.yesNoOf userMessage
  if jsToLower yesNo == "yes" then
    let s' := { s with state := "meeting_offer" }
    { messages := [getPromptForState "meeting_offer" s.data],
      sessionOut := some s', appts := env.appts, writes := [] }
  else if jsToLower yesNo == "no" then
    let s' := { s with state := "admission_choose_detail_to_change" }
    { messages := [getPromptForState "admission_choose_detail_to_change" s.data],
      sessionOut := some s', appts := env.appts, writes := [] }
  else
    { messages := ["Sorry, I didn\x27t understand. Please reply \x27Yes\x27 to use the found details or \x27No\x27 to fill out the form."],
      sessionOut := some s, appts := env.appts, writes := [] }

/-- The five field-collection cases (`admission_displayname` …
`admission_referral`): validate through the oracle; on acceptance store the
extracted value (grade and semester as the first digit run, coerced to an
integer) and advance along the fixed field order; on rejection echo the
oracle response followed by the unchanged state's prompt. -/
def handleCollection (userMessage : String) (s : Session) (env : Env) : HSOut :=
  let vt := validationTypeForState s.state
  let validationRes := env.validate vt userMessage
  if isValidValidation validationRes then
    let storeKey := storeKeyOf vt
    let extracted := extractedValueOf userMessage validationRes
    let d' :=
      if storeKey == "grade" then { s.data with grade := firstNumber extracted }
      else if storeKey == "semester" then { s.data with semester := firstNumber extracted }
      else setStrField s.data storeKey extracted
    let s' := { s with state := nextCollectionState s.state, data := d' }
    { messages := [getPromptForState s'.state s'.data],
      sessionOut := some s', appts := env.appts, writes := [] }
  else
    { messages := [validationRes, getPromptForState s.state s.data],
      sessionOut := some s, appts := env.appts, writes := [] }

/-- Case `'check_existing_appointment'`: structurally the same lookup as
`confirm_book_another_appointment` on "yes"; otherwise the admission process
is cancelled and the session deleted. -/
def handleCheckExisting (userMessage : String) (s : Session) (env : Env) : HSOut :=
  let yesNo := env.yesNoOf userMessage
  if jsToLower yesNo == "yes" then
    match env.unenrolledByPhone with
    | some r =>
        let s' := { s with data := dataFromRow r, state := "confirm_existing_data",
                           checkedExistingData := true }
        { messages := [foundInfoRaw r], sessionOut := some s', appts := env.appts, writes := [] }
    | none =>
        let s' := { s with state := "admission_displayname", checkedExistingData := true,
                           data := {} }
        { messages := [getPromptForState "admission_displayname" ({} : SessionData)],
          sessionOut := some s', appts := env.appts, writes := [] }
  else
    { messages := ["Okay, admission process cancelled. Your existing appointment remains scheduled. Let us know if you need anything else."],
      sessionOut := none, appts := env.appts, writes := [] }

/-- Case `'admission_confirm'`: "yes" persists the collected data (update when
`data.studentId` is truthy, otherwise two inserts with `MAX(id) + 1`
identifiers) and moves to `meeting_offer`; a persistence failure deletes the
session (partial writes of a failed attempt are not tracked); `'no'` —
compared without lowercasing at this spot — moves to the change-detail state;
anything else re-asks. -/
def handleAdmissionConfirm (userId userMessage : String) (s : Session) (env : Env) : HSOut :=
  let yesNo := env.yesNoOf userMessage
  if jsToLower yesNo == "yes" then
    if env.admissionWriteFails then
      { messages := ["There was a problem saving your data. Please try again later."],
        sessionOut := none, appts := env.appts, writes := [] }
    else if jsTruthyI s.data.studentId then
      let s' := { s with state := "meeting_offer" }
      { messages := [getPromptForState "meeting_offer" s.data],
        sessionOut := some s', appts := env.appts,
        writes := [.updateStudentContact s.data.studentId s.data.email (phoneOf userId),
                   .updateStudent s.data.studentId s.data] }
    else
      let newStudentId := (env.maxStudentId.getD 0) + 1
      let newContactId := (env.maxContactId.getD 0) + 1
      let d' := { s.data with studentId := some newStudentId }
      let s' := { s with state := "meeting_offer", data := d' }
      { messages := [getPromptForState "meeting_offer" d'],
        sessionOut := some s', appts := env.appts,
        writes := [.insertStudent newStudentId s.data,
                   .insertStudentContact newContactId newStudentId s.data.email (phoneOf userId)] }
  else if yesNo == "no" then
    let s' := { s with state := "admission_choose_detail_to_change" }
    { messages := [getPromptForState "admission_choose_detail_to_change" s.data],
      sessionOut := some s', appts := env.appts, writes := [] }
  else
    { messages := ["I did not understand. Are all details correct? (Yes/No)"],
      sessionOut := some s, appts := env.appts, writes := [] }

/-- Case `'admission_choose_detail_to_change'`: a member of the closed detail
set records `detailToUpdate` and moves to `update_detail`; anything else
re-prompts. -/
def handleChooseDetail (userMessage : String) (s : Session) (env : Env) : HSOut :=
  let detail := jsToLower (jsTrimS userMessage)
  if ["name", "email", "grade", "semester", "referral"].contains detail then
    let s' := { s with data := { s.data with detailToUpdate := some detail },
                       state := "update_detail" }
    { messages := ["Please provide your new " ++ capFirst detail ++ "."],
      sessionOut := some s', appts := env.appts, writes := [] }
  else
    { messages := ["Please choose a valid detail: Name, Email, Grade, Semester, or Referral."],
      sessionOut := some s, appts := env.appts, writes := [] }

/-- Case `'update_detail'`: re-validate against the chosen detail; on
acceptance store the new value (grade and semester parsed first from the
oracle payload, then from the raw message, else `null`), clear the detail and
return to `admission_confirm`; on rejection echo the oracle response and the
same prompt. -/
def handleUpdateDetail (userMessage : String) (s : Session) (env : Env) : HSOut :=
  let detailToUpdate := s.data.detailToUpdate
  let vt := validationTypeForDetail detailToUpdate
  let validationRes := env.validate vt userMessage
  if isValidValidation validationRes then
    let storeKey := storeKeyOf vt
    if storeKey == "grade" || storeKey == "semester" then
      let attempt1 : Option Int :=
        if strStartsWith (jsToLower validationRes) "valid " then
          firstNumber (jsTrimS (strDropN 6 validationRes))
        else none
      let parsed : Option Int :=
        match attempt1 with
        | some v => some v
        | none => firstNumber userMessage
      let d' :=
        if storeKey == "grade" then { s.data with grade := parsed, detailToUpdate := none }
        else { s.data with semester := parsed, detailToUpdate := none }
      let s' := { s with data := d', state := "admission_confirm" }
      let displayValue := match parsed with | some v => toString v | none => jsTrimS userMessage
      { messages := ["Thank you! Your " ++ showN detailToUpdate ++ " has been updated to " ++ displayValue ++ ".",
                     getPromptForState "admission_confirm" d'],
        sessionOut := some s', appts := env.appts, writes := [] }
    else
      let valueToStore := jsTrimS userMessage
      let d' := { setStrField s.data storeKey valueToStore with detailToUpdate := none }
      let s' := { s with data := d', state := "admission_confirm" }
      { messages := ["Thank you! Your " ++ showN detailToUpdate ++ " has been updated to " ++ valueToStore ++ ".",
                     getPromptForState "admission_confirm" d'],
        sessionOut := some s', appts := env.appts, writes := [] }
  else
    { messages := [validationRes, getPromptForState s.state s.data],
      sessionOut := some s, appts := env.appts, writes := [] }

/-- Case `'meeting_offer'`: "yes" generates a fresh slot list (the grade only
shapes the string argument); an empty list or a "no" ends the session,
otherwise the rendered list is cached in `data.slotsList` and the state
becomes `meeting_show_slots`. -/
def handleMeetingOffer (userMessage : String) (s : Session) (env : Env) : HSOut :=
  let yesNo := jsToLower (env.yesNoOf userMessage)
  if yesNo == "yes" then
    let gradeNumber : Int := if jsTruthyI s.data.grade then (s.data.grade).getD 4 else 4
    let gradeForSlots := "Grade " ++ toString gradeNumber
    let slots := getAvailableSlots gradeForSlots env.now env.appts
    if slots.isEmpty then
      { messages := ["No available slots in the next three days (Sun–Thu, 8:00–15:00)."],
        sessionOut := none, appts := env.appts, writes := [] }
    else
      let slotsList := renderSlotsList env slots
      let d' := { s.data with slotsList := some slotsList }
      let s' := { s with state := "meeting_show_slots", data := d' }
      { messages := ["Available slots (Tomorrow and the next 2 days, 8:00 AM–3:00 PM, every 30 min, Sun–Thu):\n"
                      ++ slotsList ++ "\nPlease choose a slot number:"],
        sessionOut := some s', appts := env.appts, writes := [] }
  else if yesNo == "no" then
    { messages := ["No worries! Let us know if you need anything else."],
      sessionOut := none, appts := env.appts, writes := [] }
  else
    { messages := ["I did not understand. Would you like to schedule a meeting? (Yes/No)"],
      sessionOut := some s, appts := env.appts, writes := [] }

/-- Case `'meeting_show_slots'`: parse the one-based index against a freshly
generated slot list; invalid input re-lists; a valid index first checks for an
existing future appointment (stashing the chosen `Date` in `pendingSlot` and
moving to `confirm_replace_appointment` when one exists) and otherwise books
through `saveAppointment`, returning to `awaiting_continue` on success and
deleting the session on failure. -/
def handleMeetingShowSlots (userMessage : String) (s : Session) (env : Env) : HSOut :=
  let chosenNum := jsParseInt (jsTrimS userMessage)
  let gradeForSlots :=
    if jsTruthyI s.data.grade then "Grade " ++ toString ((s.data.grade).getD 0) else "Grade 4"
  let slots := getAvailableSlots gradeForSlots env.now env.appts
  let invalid :=
    match chosenNum with
    | none => true
    | some n => decide (n ≤ 0) || decide (n > (slots.length : Int))
  if invalid then
    let slotsList := renderSlotsList env slots
    { messages := ["Invalid slot number. Please choose one of the listed options.",
                   "Available slots:\n" ++ slotsList ++ "\nPlease choose a slot number:"],
      sessionOut := some s, appts := env.appts, writes := [] }
  else
    let n := (chosenNum.getD 1).toNat
    let chosen := (slots.get? (n - 1)).getD 0
    match env.existingAppointment with
    | some appt =>
        let d' := { s.data with pendingSlot := some (.date chosen),
                                existingAppointmentDate := some appt.appdate }
        let s' := { s with data := d', state := "confirm_replace_appointment" }
        { messages := ["You already have an appointment scheduled for " ++ env.fmtLoc appt.appdate
                        ++ ". Do you want to replace it with the new slot on " ++ env.fmtLoc chosen
                        ++ "? (Yes/No)"],
          sessionOut := some s', appts := env.appts, writes := [] }
    | none =>
        let result := saveAppointment env.appts s.data.studentId chosen "Admission Inquiry" "Admission" s.data.grade
        if result.1 then
          let d' := { s.data with slotsList := none }
          let s' := { s with state := "awaiting_continue", data := d' }
          { messages := ["Your meeting is scheduled for " ++ env.fmtD chosen ++ " at " ++ env.fmtT chosen ++ ".",
                         getPromptForState "awaiting_continue" d'],
            sessionOut := some s', appts := result.2,
            writes := [.insertAppointment (newApptRow env.appts s.data.studentId chosen "Admission Inquiry" "Admission" s.data.grade)] }
        else
          { messages := ["Sorry, the selected slot might have just been taken or there was a problem scheduling your appointment. Please try again later."],
            sessionOut := none, appts := result.2, writes := [] }

/-- Date value of ``new Date(`${chosenSlot.slot_date} ${chosenSlot.slot_time}`)``
in the `confirm_replace_appointment` "yes" branch. `chosenSlot` is
`session.data.pendingSlot`, which the `meeting_show_slots` case stored as a JS
`Date` object; a `Date` has no `slot_date` or `slot_time` own properties, so
both reads give `undefined`, the template interpolates them as the string
`"undefined undefined"`, and `new Date("undefined undefined")` is an Invalid
Date — modelled as `none`. -/
def replaceDateTimeArg (p : PendingSlot) : Option Nat :=
  match p with
  | .date _ => none

/-- Interpolation of `chosenSlot.slot_date` (and `slot_time`) into the
success message: the property read on a `Date` gives `undefined`, which a
template literal renders as the string "undefined". -/
def slotFieldText (_ : PendingSlot) : String := "undefined"

/-- Case `'confirm_replace_appointment'`: "yes" rebuilds the appointment
date from `pendingSlot` (see `replaceDateTimeArg`) and books it, moving to
`awaiting_continue` on success and deleting the session on failure; an absent
`pendingSlot` would make the JS property read throw before the `try` block
(the outer message-handler catch then swallows it with no reply); any other
answer discards the pending slot and returns to `meeting_offer`. An invalid
rebuilt date makes the `DATETIME` literal `NaN-NaN-NaN NaN:NaN:NaN`, whose
insert fails inside `saveAppointment`, which then reports `false`. -/
def handleConfirmReplace (userMessage : String) (s : Session) (env : Env) : HSOut :=
  let yesNo := env.yesNoOf userMessage
  if jsToLower yesNo == "yes" then
    match s.data.pendingSlot with
    | none =>
        { messages := [], sessionOut := some s, appts := env.appts, writes := [] }
    | some chosenSlot =>
        match replaceDateTimeArg chosenSlot with
        | none =>
            { messages := ["Sorry, there was a problem replacing your appointment. The slot might have been taken. Please try scheduling again."],
              sessionOut := none, appts := env.appts, writes := [] }
        | some t =>
            let result := saveAppointment env.appts s.data.studentId t "Admission Inquiry" "Admission" s.data.grade
            if result.1 then
              let d' := { s.data with pendingSlot := none, existingAppointmentDate := none }
              let s' := { s with state := "awaiting_continue", data := d' }
              { messages := ["Okay, your previous appointment has been replaced. Your new meeting is scheduled for "
                              ++ slotFieldText chosenSlot ++ " at " ++ slotFieldText chosenSlot ++ ".",
                             getPromptForState "awaiting_continue" d'],
                sessionOut := some s', appts := result.2,
                writes := [.insertAppointment (newApptRow env.appts s.data.studentId t "Admission Inquiry" "Admission" s.data.grade)] }
            else
              { messages := ["Sorry, there was a problem replacing your appointment. The slot might have been taken. Please try scheduling again."],
                sessionOut := none, appts := result.2, writes := [] }
  else
    let d' := { s.data with pendingSlot := none, existingAppointmentDate := none }
    let s' := { s with state := "meeting_offer", data := d' }
    { messages := ["Okay, the new appointment slot was not scheduled. Your existing appointment remains.",
                   getPromptForState "meeting_offer" d'],
      sessionOut := some s', appts := env.appts, writes := [] }

/-- Case `'awaiting_continue'`: AskFAQ answers and stays; AdmissionFlow resets
`session.data` and re-runs the resumption lookups (appointments, then
un-enrolled data, else the fresh form); anything else greets — deleting the
session when a linked role record was found. -/
def handleAwaitingContinue (userMessage : String) (s : Session) (env : Env) : HSOut :=
  let intent := env.intentOf userMessage s.state
  if intent == "AskFAQ" then
    let answer := env.answerOf userMessage
    { messages := [(if answer == "" then "Could you please rephrase your question?" else answer),
                   getPromptForState s.state s.data],
      sessionOut := some s, appts := env.appts, writes := [] }
  else if intent == "AdmissionFlow" then
    match env.contactStudentId with
    | some sid =>
        let d0 : SessionData := { studentId := some sid }
        if env.futureAppointments.length > 0 then
          let appointmentList :=
            joinNL ((numberFrom 1 (env.futureAppointments.map (fun r => r.appdate))).map
              (fun p => toString p.1 ++ ". " ++ env.fmtLoc p.2))
          let d' := { d0 with existingAppointments := env.futureAppointments }
          let s' := { s with state := "confirm_book_another_appointment",
                             checkedExistingAppointment := true, data := d' }
          { messages := ["I found the following upcoming appointment(s) scheduled for your number:\n"
                          ++ appointmentList ++ "\n\nWould you like to book another appointment? (Yes/No)"],
            sessionOut := some s', appts := env.appts, writes := [] }
        else
          match env.unenrolledById with
          | some r =>
              let d' := { d0 with displayname := r.displayname, email := r.email,
                                  grade := if jsTruthyI r.grade then r.grade else none,
                                  semester := if jsTruthyI r.semester then r.semester else none,
                                  referral := if jsTruthyS r.referral then r.referral else some "Unknown" }
              let s' := { s with state := "confirm_existing_data",
                                 checkedExistingAppointment := true, checkedExistingData := true,
                                 data := d' }
              { messages := [foundInfoNA d'], sessionOut := some s', appts := env.appts, writes := [] }
          | none =>
              let s' := { s with state := "admission_displayname",
                                 checkedExistingAppointment := true, checkedExistingData := true,
                                 data := d0 }
              { messages := [getPromptForState "admission_displayname" d0],
                sessionOut := some s', appts := env.appts, writes := [] }
    | none =>
        let s' := { s with state := "admission_displayname",
                           checkedExistingAppointment := true, checkedExistingData := true,
                           data := ({} : SessionData) }
        { messages := [getPromptForState "admission_displayname" ({} : SessionData)],
          sessionOut := some s', appts := env.appts, writes := [] }
  else
    match env.userInfo with
    | some ri =>
        { messages := ["We found your info as a " ++ ri.1 ++ ":\n" ++ ri.2,
                       "How can I help you today?"],
          sessionOut := none, appts := env.appts, writes := [] }
    | none =>
        { messages := ["Hello! You can ask about admissions or any general question about the school."],
          sessionOut := some s, appts := env.appts, writes := [] }

/-- The `default` arm of the state switch: AdmissionFlow on one of the
admission states re-sends the prompt; AskFAQ snapshots the state into
`previousState`, forces `awaiting_continue` and answers; anything else greets
(deleting the session when a linked role record was found). -/
def handleDefaultCase (userMessage : String) (s : Session) (env : Env) : HSOut :=
  let intent := env.intentOf userMessage s.state
  let admissionStates := ["admission_displayname", "admission_email", "admission_grade",
    "admission_semester", "admission_referral", "admission_confirm",
    "admission_choose_detail_to_change", "update_detail"]
  if intent == "AdmissionFlow" && admissionStates.contains s.state then
    { messages := [getPromptForState s.state s.data],
      sessionOut := some s, appts := env.appts, writes := [] }
  else if intent == "AskFAQ" then
    let s' :=
      if s.state != "" then { s with previousState := some s.state, state := "awaiting_continue" }
      else { state := "awaiting_continue" }
    let answer := env.answerOf userMessage
    { messages := [(if answer == "" then "Could you please rephrase your question?" else answer),
                   "How can I help you today?"],
      sessionOut := some s', appts := env.appts, writes := [] }
  else
    match env.userInfo with
    | some ri =>
        { messages := ["We found your info as a " ++ ri.1 ++ ":\n" ++ ri.2,
                       "How can I help you today?"],
          sessionOut := none, appts := env.appts, writes := [] }
    | none =>
        { messages := ["Hello! You can ask about admissions or any general question about the school."],
          sessionOut := some s, appts := env.appts, writes := [] }

/-- Main session handler `handleSession(userId, userMessage, session)`. The
completion guard (`intentDisabled`) runs first, then the cancellation keyword
check, then the state switch. -/
def handleSession (userId userMessage : String) (s : Session) (env : Env) : HSOut :=
  if s.intentDisabled then
    { messages := ["Your admission process is complete. Let us know if you need anything else."],
      sessionOut := some s, appts := env.appts, writes := [] }
  else if jsToLower userMessage == "exit" then
    { messages := ["Admission process cancelled. You can start again anytime."],
      sessionOut := none, appts := env.appts, writes := [] }
  else
    match s.state with
    | "confirm_book_another_appointment" => handleConfirmBookAnother userMessage s env
    | "confirm_existing_data" => handleConfirmExistingData userMessage s env
    | "admission_displayname" => handleCollection userMessage s env
    | "admission_email" => handleCollection userMessage s env
    | "admission_grade" => handleCollection userMessage s env
    | "admission_semester" => handleCollection userMessage s env
    | "admission_referral" => handleCollection userMessage s env
    | "check_existing_appointment" => handleCheckExisting userMessage s env
    | "admission_confirm" => handleAdmissionConfirm userId userMessage s env
    | "admission_choose_detail_to_change" => handleChooseDetail userMessage s env
    | "update_detail" => handleUpdateDetail userMessage s env
    | "meeting_offer" => handleMeetingOffer userMessage s env
    | "meeting_show_slots" => handleMeetingShowSlots userMessage s env
    | "confirm_replace_appointment" => handleConfirmReplace userMessage s env
    | "awaiting_continue" => handleAwaitingContinue userMessage s env
    | _ => handleDefaultCase userMessage s env

/-! ## controllers/whatsappController.js : the message pipeline -/

/-- The `userSessions` map, as an association list keyed by user id. -/
abbrev Store := List (String × Session)

/-- Map lookup `userSessions.get(userId)`. -/
def storeFind : Store → String → Option Session
  | [], _ => none
  | (k, v) :: rest, key => if k == key then some v else storeFind rest key

/-- Map update `userSessions.set(userId, session)`. -/
def storeSet (st : Store) (key : String) (v : Session) : Store :=
  match st with
  | [] => [(key, v)]
  | (k, w) :: rest => if k == key then (k, v) :: rest else (k, w) :: storeSet rest key v

/-- Map removal `userSessions.delete(userId)`. -/
def storeErase : Store → String → Store
  | [], _ => []
  | (k, v) :: rest, key =>
      if k == key then storeErase rest key else (k, v) :: storeErase rest key

/-- Commit of a `handleSession` outcome to the store: JS mutates the stored
object in place (and `delete` removes it), so the final session value replaces
the entry and `none` erases it. -/
def applySession (st : Store) (userId : String) (o : Option Session) : Store :=
  match o with
  | some s => storeSet st userId s
  | none => storeErase st userId

/-- Outcome of one inbound message through `client.on('message')`. -/
structure COut where
  messages : List String
  store : Store
  appts : List Appointment
  writes : List DbWrite
  deriving DecidableEq, Repr

/-- Priorities 2–4 of the revised message handler, used when no active session
exists: AdmissionFlow builds a new session from the phone-number lookups,
AskFAQ answers without creating a session, and the fallback greets. -/
def noSessionFlow (userId userMessage intent : String) (env : Env) (store : Store)
    (w0 : List DbWrite) : COut :=
  if intent == "AdmissionFlow" then
    match env.contactStudentId with
    | some sid =>
        let base : SessionData := { studentId := some sid }
        if env.futureAppointments.length > 0 then
          let appointmentList :=
            joinNL ((numberFrom 1 (env.futureAppointments.map (fun r => r.appdate))).map
              (fun p => toString p.1 ++ ". " ++ env.fmtLoc p.2))
          let ns : Session := { state := "confirm_book_another_appointment",
                                checkedExistingAppointment := true,
                                data := { base with existingAppointments := env.futureAppointments } }
          { messages := ["I found the following upcoming appointment(s) scheduled for your number:\n"
                          ++ appointmentList ++ "\n\nWould you like to book another appointment? (Yes/No)"],
            store := storeSet store userId ns, appts := env.appts, writes := w0 }
        else
          match env.unenrolledById with
          | some r =>
              let d' : SessionData :=
                { studentId := some sid, displayname := r.displayname, email := r.email,
                  grade := if jsTruthyI r.grade then r.grade else none,
                  semester := if jsTruthyI r.semester then r.semester else none,
                  referral := if jsTruthyS r.referral then r.referral else some "Unknown" }
              let ns : Session := { state := "confirm_existing_data",
                                    checkedExistingAppointment := true, checkedExistingData := true,
                                    data := d' }
              { messages := [foundInfoNA d'],
                store := storeSet store userId ns, appts := env.appts, writes := w0 }
          | none =>
              let ns : Session := { state := "admission_displayname",
                                    checkedExistingAppointment := true, checkedExistingData := true,
                                    data := base }
              { messages := [getPromptForState "admission_displayname" base],
                store := storeSet store userId ns, appts := env.appts, writes := w0 }
    | none =>
        let ns : Session := { state := "admission_displayname",
                              checkedExistingAppointment := true, checkedExistingData := true,
                              data := {} }
        { messages := [getPromptForState "admission_displayname" ({} : SessionData)],
          store := storeSet store userId ns, appts := env.appts, writes := w0 }
  else if intent == "AskFAQ" then
    let answer := env.answerOf userMessage
    { messages := [(if answer == "" then "Could you please rephrase your question?" else answer)],
      store := store, appts := env.appts, writes := w0 }
  else
    match env.userInfo with
    | some _ =>
        { messages := ["Hello! Welcome back.", "How can I help you today?"],
          store := store, appts := env.appts, writes := w0 }
    | none =>
        { messages := ["Hello! You can ask about admissions or any general question about the school.",
                       "How can I help you today?"],
          store := store, appts := env.appts, writes := w0 }

/-- The revised `client.on('message')` handler: sanitize the body, drop
messages from before the bot start, rate-limit, persist the (sanitized)
message, then give priority to an active session via `handleSession`;
otherwise run the no-session priorities. `determineIntent` is invoked before
the dispatch on the sanitized text. -/
def clientOnMessage (msgFrom msgBody : String) (msgTimestamp : Nat) (env : Env)
    (store : Store) : COut :=
  let userId := msgFrom
  let userMessage := sanitizeInput msgBody
  if msgTimestamp * 1000 < env.botStart then
    { messages := [], store := store, appts := env.appts, writes := [] }
  else if env.rateLimited then
    { messages := ["You are sending messages too quickly."],
      store := store, appts := env.appts, writes := [] }
  else
    let w0 := [DbWrite.saveUserMessage userId userMessage]
    let sessionQ := storeFind store userId
    let intent := env.intentOf userMessage (match sessionQ with | some s => s.state | none => "")
    match sessionQ with
    | some s =>
        if s.state != "" then
          let r := handleSession userId userMessage s env
          { messages := r.messages, store := applySession store userId r.sessionOut,
            appts := r.appts, writes := w0 ++ r.writes }
        else noSessionFlow userId userMessage intent env store w0
    | none => noSessionFlow userId userMessage intent env store w0

/-- Repeated application of `handleSession` to the session left by the
previous invocation (the user retrying with the same message and oracle
behaviour); `none` aborts once the session has been deleted. -/
def iterateHandle (userId userMessage : String) (env : Env) : Nat → Option Session → Option Session
  | 0, o => o
  | n + 1, o =>
      match o with
      | none => none
      | some s => iterateHandle userId userMessage env n (handleSession userId userMessage s env).sessionOut

/-! ## concrete inputs used by witnesses and counterexamples -/

/-- Baseline environment: unknown oracle answers, empty database. -/
def envA : Env :=
  { yesNoOf := fun _ => "unknown"
    validate := fun _ _ => "invalid"
    intentOf := fun _ _ => "Unknown"
    answerOf := fun _ => "Here is the answer."
    fmtD := fun _ => "May 1"
    fmtT := fun _ => "8:00 AM"
    fmtLoc := fun t => "loc " ++ toString t
    unenrolledByPhone := none
    contactStudentId := none
    futureAppointments := []
    unenrolledById := none
    userInfo := none
    maxStudentId := none
    maxContactId := none
    admissionWriteFails := false
    existingAppointment := none
    appts := []
    now := 0 }

/-- Environment whose validation oracle rejects every input. -/
def envRej : Env := { envA with validate := fun _ _ => "Please enter a valid grade (e.g., Grade 3)." }

/-- Environment whose validation oracle accepts with normalized value "3". -/
def envValid3 : Env := { envA with validate := fun _ _ => "valid 3" }

/-- Environment that classifies the message as a question (AskFAQ) and cannot
read it as yes/no. -/
def envFAQ : Env := { envA with intentOf := fun _ _ => "AskFAQ" }

/-- A pre-existing appointment row at timestamp 200000. -/
def apptOld : Appointment :=
  { id := 1, student_id := some 7, appdate := 200000, timeCol := 200000,
    purpose := "Admission Inquiry", host := "IvyBot", typeCol := "Admission",
    forgrade := some 3 }

/-- Environment whose yes/no oracle answers "yes", with one booked row. -/
def envYes : Env := { envA with yesNoOf := fun _ => "yes", appts := [apptOld] }

/-- Environment whose validation oracle accepts a name with a normalized
value containing a character outside the sanitizer alphabet. -/
def envName : Env := { envA with validate := fun _ _ => "valid José" }

/-- A session whose flow has completed (`intentDisabled`). -/
def sDone : Session := { state := "awaiting_continue", intentDisabled := true }

/-- A session waiting for the applicant grade. -/
def sGrade : Session :=
  { state := "admission_grade",
    data := { displayname := some "John Smith", email := some "john@mail.com" } }

/-- A session at the confirmation step with all fields collected. -/
def sConfirm : Session :=
  { state := "admission_confirm",
    data := { displayname := some "John Smith", email := some "john@mail.com",
              grade := some 3, semester := some 1, referral := some "Friend" } }

/-- A session at `confirm_replace_appointment` with a stashed pending slot
(the `Date` for timestamp 374400) and an existing appointment at 200000. -/
def sReplace : Session :=
  { state := "confirm_replace_appointment",
    data := { studentId := some 7, grade := some 3,
              pendingSlot := some (.date 374400),
              existingAppointmentDate := some 200000 } }

/-- A fresh session asking for the full name. -/
def sName : Session := { state := "admission_displayname" }

/-! ## helper lemmas -/

/-- Dropping again after `dropWhile` changes nothing: the head of the result
already fails the predicate. -/
lemma dropWhile_head?_false (p : Char → Bool) (l : List Char) :
    ∀ c, (l.dropWhile p).head? = some c → p c = false := by
  induction l with
  | nil => intro c h; simp [List.dropWhile] at h
  | cons a as ih =>
      intro c h
      rw [List.dropWhile_cons] at h
      by_cases hp : p a
      · rw [if_pos hp] at h; exact ih c h
      · rw [if_neg hp] at h
        simp only [List.head?_cons, Option.some.injEq] at h
        subst h
        exact Bool.eq_false_iff.mpr hp

lemma dropWhile_eq_self_of_head (p : Char → Bool) (l : List Char)
    (h : ∀ c, l.head? = some c → p c = false) : l.dropWhile p = l := by
  cases l with
  | nil => rfl
  | cons a as =>
      rw [List.dropWhile_cons, if_neg]
      simp only [h a (by simp), Bool.false_eq_true, not_false_eq_true]

lemma dropWhile_idem (p : Char → Bool) (l : List Char) :
    (l.dropWhile p).dropWhile p = l.dropWhile p :=
  dropWhile_eq_self_of_head p _ (dropWhile_head?_false p l)

/-- `dropWhile` removes a prefix, so a nonempty result keeps the last
element. -/
lemma dropWhile_getLast? (p : Char → Bool) (l : List Char)
    (h : l.dropWhile p ≠ []) : (l.dropWhile p).getLast? = l.getLast? := by
  induction l with
  | nil => simp [List.dropWhile] at h
  | cons a as ih =>
      rw [List.dropWhile_cons]
      by_cases hp : p a
      · rw [List.dropWhile_cons, if_pos hp] at h
        rw [if_pos hp, ih h]
        have hne : as ≠ [] := by
          intro he; subst he; simp [List.dropWhile] at h
        obtain ⟨b, bs, rfl⟩ := List.exists_cons_of_ne_nil hne
        exact List.getLast?_cons_cons.symm
      · rw [if_neg hp]

lemma mem_of_mem_jsTrimList {c : Char} {l : List Char} (h : c ∈ jsTrimList l) : c ∈ l := by
  unfold jsTrimList at h
  rw [List.mem_reverse] at h
  have h2 : c ∈ (l.dropWhile jsSpace).reverse := (List.dropWhile_sublist _).subset h
  rw [List.mem_reverse] at h2
  exact (List.dropWhile_sublist _).subset h2

lemma jsTrimList_idem (l : List Char) : jsTrimList (jsTrimList l) = jsTrimList l := by
  unfold jsTrimList
  set u := l.dropWhile jsSpace with hu
  set w := u.reverse.dropWhile jsSpace with hw
  have h1 : w.reverse.dropWhile jsSpace = w.reverse := by
    apply dropWhile_eq_self_of_head
    intro c hc
    rw [List.head?_reverse] at hc
    have hwne : w ≠ [] := by
      intro he; rw [he] at hc; simp at hc
    have hlast : w.getLast? = u.reverse.getLast? := by
      rw [hw]; exact dropWhile_getLast? _ _ (hw ▸ hwne)
    rw [hlast, List.getLast?_reverse] at hc
    exact dropWhile_head?_false _ _ _ hc
  rw [h1, List.reverse_reverse]
  have h2 : w.dropWhile jsSpace = w := by
    rw [hw]; exact dropWhile_idem _ _
  rw [h2]

lemma sanitize_chars (s : String) : ∀ c ∈ (sanitizeInput s).data, allowedChar c = true := by
  intro c hc
  have hc' : c ∈ jsTrimList (s.data.filter allowedChar) := hc
  have : c ∈ s.data.filter allowedChar := mem_of_mem_jsTrimList hc'
  exact List.of_mem_filter this

lemma sanitize_idem (s : String) : sanitizeInput (sanitizeInput s) = sanitizeInput s := by
  show String.mk (jsTrimList ((jsTrimList (s.data.filter allowedChar)).filter allowedChar))
      = String.mk (jsTrimList (s.data.filter allowedChar))
  have hfil : (jsTrimList (s.data.filter allowedChar)).filter allowedChar
      = jsTrimList (s.data.filter allowedChar) := by
    apply List.filter_eq_self.mpr
    intro c hc
    exact List.of_mem_filter (mem_of_mem_jsTrimList hc)
  rw [hfil, jsTrimList_idem]

/-- Fuel adequacy of the `while` loop embedding: once the fuel covers the day
window, adding more fuel does not change the enumerated days. -/
lemma whileDays_fuel (f c e : Nat) (h : e ≤ c + f * 86400) :
    whileDays (f + 1) c e = whileDays f c e := by
  induction f generalizing c with
  | zero =>
      show (if c < e then c :: whileDays 0 (c + 86400) e else []) = []
      rw [if_neg (by omega)]
  | succ f ih =>
      show (if c < e then c :: whileDays (f + 1) (c + 86400) e else [])
          = (if c < e then c :: whileDays f (c + 86400) e else [])
      by_cases hc : c < e
      · rw [if_pos hc, if_pos hc, ih (c + 86400) (by omega)]
      · rw [if_neg hc, if_neg hc]

lemma storeFind_erase (st : Store) (k : String) : storeFind (storeErase st k) k = none := by
  induction st with
  | nil => rfl
  | cons kv rest ih =>
      show storeFind (if kv.1 == k then storeErase rest k else kv :: storeErase rest k) k = none
      by_cases hk : kv.1 == k
      · rw [if_pos hk]; exact ih
      · rw [if_neg hk]
        show (if kv.1 == k then some kv.2 else storeFind (storeErase rest k) k) = none
        rw [if_neg hk]; exact ih

/-! ## claim C2 : saveAppointment -/

/-- C2 counterexample: the claim as stated says `saveAppointment` returns a
boolean outcome in every case and never propagates an exception to the
caller; `pool.getConnection()` is awaited before the `try` block, so when
acquiring the connection fails the rejection propagates (the run produces an
error, not a boolean). -/
theorem saveAppointment_getConn_throws :
    saveAppointmentE (fun st => st == SaveStep.getConn) [] (some 1) 1000
      "Admission Inquiry" "Admission" none = .error () := rfl

/-- C2 (amended): inside the transaction the behaviour is exactly as claimed —
a row in the inclusive ±1 second window aborts with `false` and inserts
nothing; otherwise one row with identifier `MAX(id) + 1` is inserted at the
requested timestamp and the call returns `true`; and for every failure
schedule that lets the pool connection be acquired the call returns a boolean
outcome (never an exception), changing the table at most by that one insert.
An exception while acquiring the pool connection itself propagates. -/
theorem saveAppointment_spec (appts : List Appointment) (studentId : Option Int)
    (t : Nat) (purpose typeArg : String) (forgrade : Option Int) :
    (conflictWindowCount appts t > 0 →
      saveAppointment appts studentId t purpose typeArg forgrade = (false, appts)) ∧
    (conflictWindowCount appts t = 0 →
      saveAppointment appts studentId t purpose typeArg forgrade
        = (true, appts ++ [newApptRow appts studentId t purpose typeArg forgrade])) ∧
    (∀ fail : SaveStep → Bool, fail SaveStep.getConn = false →
      ∃ b : Bool, ∃ appts' : List Appointment,
        saveAppointmentE fail appts studentId t purpose typeArg forgrade = .ok (b, appts')
        ∧ (appts' = appts
            ∨ (b = true ∧ appts' = appts ++ [newApptRow appts studentId t purpose typeArg forgrade]))) := by
  refine ⟨?_, ?_, ?_⟩
  · intro h
    unfold saveAppointment
    rw [if_pos h]
  · intro h
    unfold saveAppointment
    rw [if_neg (by omega)]
  · intro fail hf
    unfold saveAppointmentE
    rw [hf]
    simp only [Bool.false_eq_true, if_false]
    by_cases h1 : fail SaveStep.beginTx = true
    · rw [if_pos h1]; exact ⟨false, appts, rfl, Or.inl rfl⟩
    · rw [if_neg h1]
      by_cases h2 : fail SaveStep.qCount = true
      · rw [if_pos h2]; exact ⟨false, appts, rfl, Or.inl rfl⟩
      · rw [if_neg h2]
        by_cases h3 : conflictWindowCount appts t > 0
        · rw [if_pos h3]; exact ⟨false, appts, rfl, Or.inl rfl⟩
        · rw [if_neg h3]
          by_cases h4 : fail SaveStep.qMaxId = true
          · rw [if_pos h4]; exact ⟨false, appts, rfl, Or.inl rfl⟩
          · rw [if_neg h4]
            by_cases h5 : fail SaveStep.qInsert = true
            · rw [if_pos h5]; exact ⟨false, appts, rfl, Or.inl rfl⟩
            · rw [if_neg h5]
              by_cases h6 : fail SaveStep.qCommit = true
              · rw [if_pos h6]; exact ⟨false, appts, rfl, Or.inl rfl⟩
              · rw [if_neg h6]
                exact ⟨true, _, rfl, Or.inr ⟨rfl, rfl⟩⟩

/-- Witness for C2's amended theorem at a concrete input: an empty table has
no conflicting row around timestamp 1000, and the booking inserts exactly the
one new row with identifier 1. -/
theorem saveAppointment_spec_witness :
    conflictWindowCount [] 1000 = 0 ∧
    saveAppointment [] (some 1) 1000 "Admission Inquiry" "Admission" none
      = (true, [] ++ [newApptRow [] (some 1) 1000 "Admission Inquiry" "Admission" none]) :=
  ⟨by decide,
   (saveAppointment_spec [] (some 1) 1000 "Admission Inquiry" "Admission" none).2.1 (by decide)⟩

/-! ## claim C3 : getAvailableSlots -/

/-- C3 counterexample: at current time 0 (a Thursday) with an empty
appointments table, the code offers the 08:00 slot of the fourth enumerated
day (a Monday, timestamp `4 * 86400 + 8 * 3600`), while the claimed 3-day
window starting tomorrow (Friday, Saturday, Sunday) does not contain it. -/
theorem getAvailableSlots_fourth_day :
    (4 * 86400 + 8 * 3600) ∈ getAvailableSlots "Grade 4" 0 []
    ∧ (4 * 86400 + 8 * 3600) ∉ claimSlots 3 0 [] := by
  constructor
  · decide
  · decide

/-- C3 (amended): `getAvailableSlots` returns exactly the slots of the
claimed algorithm run over a 4-day window (tomorrow through three days after
tomorrow) rather than a 3-day window: `endDate` is `startDate` plus three
calendar days extended by `setHours(23,59,59,999)`, so the `while` loop also
admits the midnight of the fourth day. Everything else matches the claim:
Sunday–Thursday filter, half-hour marks from 08:00 up to and excluding 15:00,
strictly-future filter, exact-timestamp booking filter, chronological order,
and independence of the grade argument. -/
theorem getAvailableSlots_eq_claim4 (grade : String) (now : Nat) (appts : List Appointment) :
    getAvailableSlots grade now appts = claimSlots 4 now appts := by
  simp only [getAvailableSlots, claimSlots]
  have e5 : ∀ c e : Nat, whileDays 5 c e
      = if c < e then c :: whileDays 4 (c + 86400) e else [] := fun c e => rfl
  have e4 : ∀ c e : Nat, whileDays 4 c e
      = if c < e then c :: whileDays 3 (c + 86400) e else [] := fun c e => rfl
  have e3 : ∀ c e : Nat, whileDays 3 c e
      = if c < e then c :: whileDays 2 (c + 86400) e else [] := fun c e => rfl
  have e2 : ∀ c e : Nat, whileDays 2 c e
      = if c < e then c :: whileDays 1 (c + 86400) e else [] := fun c e => rfl
  have e1 : ∀ c e : Nat, whileDays 1 c e
      = if c < e then c :: whileDays 0 (c + 86400) e else [] := fun c e => rfl
  have h1 : (now / 86400 + 1) * 86400
      < (now / 86400 + 1) * 86400 + 3 * 86400 + 86399 := by omega
  have h2 : (now / 86400 + 1) * 86400 + 86400
      < (now / 86400 + 1) * 86400 + 3 * 86400 + 86399 := by omega
  have h3 : (now / 86400 + 1) * 86400 + 86400 + 86400
      < (now / 86400 + 1) * 86400 + 3 * 86400 + 86399 := by omega
  have h4 : (now / 86400 + 1) * 86400 + 86400 + 86400 + 86400
      < (now / 86400 + 1) * 86400 + 3 * 86400 + 86399 := by omega
  have h5 : ¬((now / 86400 + 1) * 86400 + 86400 + 86400 + 86400 + 86400
      < (now / 86400 + 1) * 86400 + 3 * 86400 + 86399) := by omega
  rw [e5, if_pos h1, e4, if_pos h2, e3, if_pos h3, e2, if_pos h4, e1, if_neg h5]
  have hdays : [(now / 86400 + 1) * 86400, (now / 86400 + 1) * 86400 + 86400,
      (now / 86400 + 1) * 86400 + 86400 + 86400,
      (now / 86400 + 1) * 86400 + 86400 + 86400 + 86400]
      = (List.range 4).map (fun k => (now / 86400 + 1 + k) * 86400) := by
    have hr : List.range 4 = [0, 1, 2, 3] := rfl
    rw [hr]
    simp only [List.map_cons, List.map_nil, List.cons.injEq, and_true]
    exact ⟨trivial, by omega, by omega, by omega⟩
  rw [hdays]

/-! ## claim C4 : the cancellation keyword -/

/-- C4 counterexample: the claim quantifies over every session in any state,
but a session whose `intentDisabled` flag is set answers the cancellation
keyword with the completion acknowledgment and is NOT deleted — the
completion guard runs before the exit check. -/
theorem exit_ignored_when_disabled :
    handleSession "u@c.us" "exit" sDone envA
      = { messages := ["Your admission process is complete. Let us know if you need anything else."],
          sessionOut := some sDone, appts := [], writes := [] }
    ∧ (handleSession "u@c.us" "exit" sDone envA).sessionOut ≠ none := by
  constructor
  · rfl
  · decide

/-- C4 (amended): for every session whose `intentDisabled` flag is false, an
inbound message equal to the case-insensitive cancellation keyword deletes
the session (so the next lookup finds nothing and a fresh flow starts),
acknowledges the cancellation, and performs no database write — overriding
every state-specific branch of the switch. -/
theorem exit_cancels_session (userId userMessage : String) (s : Session) (env : Env)
    (store : Store) (hdis : s.intentDisabled = false)
    (hexit : jsToLower userMessage = "exit") :
    handleSession userId userMessage s env
      = { messages := ["Admission process cancelled. You can start again anytime."],
          sessionOut := none, appts := env.appts, writes := [] }
    ∧ storeFind (applySession store userId (handleSession userId userMessage s env).sessionOut)
        userId = none := by
  have hmain : handleSession userId userMessage s env
      = { messages := ["Admission process cancelled. You can start again anytime."],
          sessionOut := none, appts := env.appts, writes := [] } := by
    simp [handleSession, hdis, hexit]
  refine ⟨hmain, ?_⟩
  rw [hmain]
  exact storeFind_erase store userId

/-- Witness for C4's amended theorem: a mid-flow meeting-offer session and the
message "EXIT". -/
theorem exit_cancels_session_witness :
    (({ state := "meeting_offer" } : Session).intentDisabled = false
      ∧ jsToLower "EXIT" = "exit")
    ∧ handleSession "u@c.us" "EXIT" { state := "meeting_offer" } envA
        = { messages := ["Admission process cancelled. You can start again anytime."],
            sessionOut := none, appts := envA.appts, writes := [] } :=
  ⟨⟨rfl, rfl⟩,
   (exit_cancels_session "u@c.us" "EXIT" { state := "meeting_offer" } envA [] rfl rfl).1⟩

/-! ## claim C5 : the completion guard -/

/-- C5: once `intentDisabled` is set, every inbound message receives exactly
the completion acknowledgment and nothing else happens: the session object is
returned unchanged (not deleted), the appointments table is untouched and no
database write occurs. -/
theorem intentDisabled_only_ack (userId userMessage : String) (s : Session) (env : Env)
    (h : s.intentDisabled = true) :
    handleSession userId userMessage s env
      = { messages := ["Your admission process is complete. Let us know if you need anything else."],
          sessionOut := some s, appts := env.appts, writes := [] } := by
  simp [handleSession, h]

/-- Witness for C5 at a concrete completed session and message. -/
theorem intentDisabled_only_ack_witness :
    sDone.intentDisabled = true
    ∧ handleSession "u@c.us" "hello there" sDone envA
        = { messages := ["Your admission process is complete. Let us know if you need anything else."],
            sessionOut := some sDone, appts := envA.appts, writes := [] } :=
  ⟨rfl, intentDisabled_only_ack "u@c.us" "hello there" sDone envA rfl⟩

/-! ## claim C6 : rejection loop of the field-collection states -/

/-- C6: in every field-collection state, when the oracle response is not an
acceptance, the response text is echoed verbatim followed by the current
state's prompt, the session object (state and collected data) is returned
unchanged with no database write, and — since nothing changes — any number of
such retries leaves the session unchanged (no retry bound). -/
theorem rejection_keeps_state (userId userMessage : String) (s : Session) (env : Env)
    (hdis : s.intentDisabled = false) (hexit : jsToLower userMessage ≠ "exit")
    (hstate : s.state = "admission_displayname" ∨ s.state = "admission_email"
      ∨ s.state = "admission_grade" ∨ s.state = "admission_semester"
      ∨ s.state = "admission_referral")
    (hrej : isValidValidation (env.validate (validationTypeForState s.state) userMessage) = false) :
    (handleSession userId userMessage s env
      = { messages := [env.validate (validationTypeForState s.state) userMessage,
                       getPromptForState s.state s.data],
          sessionOut := some s, appts := env.appts, writes := [] })
    ∧ (∀ n : Nat, iterateHandle userId userMessage env n (some s) = some s) := by
  have hmain : handleSession userId userMessage s env
      = { messages := [env.validate (validationTypeForState s.state) userMessage,
                       getPromptForState s.state s.data],
          sessionOut := some s, appts := env.appts, writes := [] } := by
    obtain ⟨st, prev, dis, cd, ca, d⟩ := s
    simp only at hstate hdis hrej ⊢
    subst hdis
    rcases hstate with h | h | h | h | h <;> subst h <;>
      simp [handleSession, hexit, handleCollection, hrej]
  refine ⟨hmain, ?_⟩
  intro n
  induction n with
  | zero => rfl
  | succ n ih =>
      show iterateHandle userId userMessage env n
        (handleSession userId userMessage s env).sessionOut = some s
      rw [hmain]
      exact ih

/-- Witness for C6: the grade state with a rejecting oracle and ten retries. -/
theorem rejection_keeps_state_witness :
    (sGrade.intentDisabled = false ∧ jsToLower "blue" ≠ "exit"
      ∧ sGrade.state = "admission_grade"
      ∧ isValidValidation (envRej.validate (validationTypeForState sGrade.state) "blue") = false)
    ∧ (handleSession "u@c.us" "blue" sGrade envRej
        = { messages := [envRej.validate (validationTypeForState sGrade.state) "blue",
                         getPromptForState sGrade.state sGrade.data],
            sessionOut := some sGrade, appts := envRej.appts, writes := [] })
    ∧ iterateHandle "u@c.us" "blue" envRej 10 (some sGrade) = some sGrade :=
  ⟨⟨rfl, by decide, rfl, by decide⟩,
   (rejection_keeps_state "u@c.us" "blue" sGrade envRej rfl (by decide)
      (Or.inr (Or.inr (Or.inl rfl))) (by decide)).1,
   (rejection_keeps_state "u@c.us" "blue" sGrade envRej rfl (by decide)
      (Or.inr (Or.inr (Or.inl rfl))) (by decide)).2 10⟩

/-! ## claim C7 : storing an accepted grade -/

/-- C7: in state `admission_grade`, an oracle acceptance with normalized value
"3" stores the integer 3 (the first digit run of the normalized value) under
`data.grade` and advances the session to `admission_semester`, sending the
next state's prompt. -/
theorem grade_three_stored (userId userMessage : String) (s : Session) (env : Env)
    (hdis : s.intentDisabled = false) (hexit : jsToLower userMessage ≠ "exit")
    (hstate : s.state = "admission_grade")
    (hval : env.validate "grade_level" userMessage = "valid 3") :
    handleSession userId userMessage s env
      = { messages := [getPromptForState "admission_semester" { s.data with grade := some 3 }],
          sessionOut := some { s with state := "admission_semester",
                                      data := { s.data with grade := some 3 } },
          appts := env.appts, writes := [] } := by
  obtain ⟨st, prev, dis, cd, ca, d⟩ := s
  simp only at hstate hdis ⊢
  subst hstate
  subst hdis
  simp [handleSession, hexit, handleCollection, validationTypeForState, storeKeyOf,
        nextCollectionState, hval,
        show isValidValidation "valid 3" = true from rfl,
        show ∀ m : String, extractedValueOf m "valid 3" = "3" from fun m => rfl,
        show firstNumber "3" = some 3 from rfl]

/-- Witness for C7: input "three" accepted as "valid 3". -/
theorem grade_three_stored_witness :
    (sGrade.intentDisabled = false ∧ jsToLower "three" ≠ "exit"
      ∧ sGrade.state = "admission_grade" ∧ envValid3.validate "grade_level" "three" = "valid 3")
    ∧ handleSession "u@c.us" "three" sGrade envValid3
        = { messages := [getPromptForState "admission_semester" { sGrade.data with grade := some 3 }],
            sessionOut := some { sGrade with state := "admission_semester",
                                             data := { sGrade.data with grade := some 3 } },
            appts := envValid3.appts, writes := [] } :=
  ⟨⟨rfl, by decide, rfl, rfl⟩,
   grade_three_stored "u@c.us" "three" sGrade envValid3 rfl (by decide) rfl rfl⟩

/-! ## claim C8 : question interrupts at the confirmation step -/

/-- C8 counterexample: an AskFAQ-classified message arriving while the session
state is `admission_confirm` does NOT snapshot `previousState` or force
`awaiting_continue`: `admission_confirm` has its own switch case, which runs
the yes/no interpretation and re-asks; the session object is returned
unchanged, with `previousState` still absent, the state still
`admission_confirm` and `intentDisabled` still false. -/
theorem confirm_faq_no_interrupt :
    handleSession "u@c.us" "What are the school fees?" sConfirm envFAQ
      = { messages := ["I did not understand. Are all details correct? (Yes/No)"],
          sessionOut := some sConfirm, appts := [], writes := [] }
    ∧ envFAQ.intentOf "What are the school fees?" sConfirm.state = "AskFAQ"
    ∧ sConfirm.previousState = none ∧ sConfirm.state = "admission_confirm"
    ∧ sConfirm.intentDisabled = false := by
  exact ⟨rfl, rfl, rfl, rfl, rfl⟩

/-- C8 (amended): a message arriving in state `admission_confirm` is consumed
by the confirmation case regardless of its intent classification (the oracle
`determineIntent` is not even consulted in this state); when the yes/no
interpretation is neither "yes" (case-insensitively) nor the exact string
"no", the handler re-asks for confirmation and returns the session object
unchanged — no `previousState` snapshot, no forced `awaiting_continue`, no
`intentDisabled` marking, no database write. The interrupt bookkeeping cited
by the claim sits in the switch's default arm (and, in the repository's older
controller revision, behind the same shape of dispatch), which is unreachable
while the state is `admission_confirm`. -/
theorem confirm_consumes_any_message (userId userMessage : String) (s : Session) (env : Env)
    (hdis : s.intentDisabled = false) (hexit : jsToLower userMessage ≠ "exit")
    (hstate : s.state = "admission_confirm")
    (hyes : jsToLower (env.yesNoOf userMessage) ≠ "yes")
    (hno : env.yesNoOf userMessage ≠ "no") :
    handleSession userId userMessage s env
      = { messages := ["I did not understand. Are all details correct? (Yes/No)"],
          sessionOut := some s, appts := env.appts, writes := [] } := by
  obtain ⟨st, prev, dis, cd, ca, d⟩ := s
  simp only at hstate hdis ⊢
  subst hstate
  subst hdis
  simp [handleSession, hexit, handleAdmissionConfirm, hyes, hno]

/-- Witness for C8's amended theorem at the concrete AskFAQ scenario. -/
theorem confirm_consumes_any_message_witness :
    (sConfirm.intentDisabled = false ∧ jsToLower "What are the school fees?" ≠ "exit"
      ∧ sConfirm.state = "admission_confirm"
      ∧ jsToLower (envFAQ.yesNoOf "What are the school fees?") ≠ "yes"
      ∧ envFAQ.yesNoOf "What are the school fees?" ≠ "no")
    ∧ handleSession "u@c.us" "What are the school fees?" sConfirm envFAQ
        = { messages := ["I did not understand. Are all details correct? (Yes/No)"],
            sessionOut := some sConfirm, appts := envFAQ.appts, writes := [] } :=
  ⟨⟨rfl, by decide, rfl, by decide, by decide⟩,
   confirm_consumes_any_message "u@c.us" "What are the school fees?" sConfirm envFAQ
     rfl (by decide) rfl (by decide) (by decide)⟩

/-! ## claim C9 : the replace-appointment booking -/

/-- C9: evaluation at the failing input. In the `confirm_replace_appointment`
"yes" branch the code rebuilds the appointment date as
``new Date(`${chosenSlot.slot_date} ${chosenSlot.slot_time}`)``, but
`pendingSlot` holds a `Date` (stored by `meeting_show_slots`), which has no
such properties — the argument is an Invalid Date (`none`), not the stashed
timestamp 374400. Consequently the insert can never book the stashed slot:
the appointments table gains no row at 374400, the failure message is sent
and the session is deleted even though the slot was free. -/
theorem replace_books_invalid_date :
    replaceDateTimeArg (.date 374400) = none
    ∧ handleSession "u@c.us" "yes please" sReplace envYes
        = { messages := ["Sorry, there was a problem replacing your appointment. The slot might have been taken. Please try scheduling again."],
            sessionOut := none, appts := [apptOld], writes := [] }
    ∧ (handleSession "u@c.us" "yes please" sReplace envYes).appts.filter
        (fun a => a.appdate == 374400) = [] :=
  ⟨rfl, rfl, rfl⟩

/-! ## claim C10 : the sanitizer pipeline -/

/-- C10 counterexample: stored field values are not always drawn from the
sanitized message. With the oracle accepting the (clean) input "Jose" as
`"valid José"`, the handler stores `data.displayname = "José"`, whose
character `é` lies outside the sanitizer alphabet — so "every stored field
value contains only characters from that set" fails. -/
theorem oracle_payload_escapes_sanitizer :
    storeFind (clientOnMessage "u@c.us" "Jose" 1 envName [("u@c.us", sName)]).store "u@c.us"
      = some { state := "admission_email", data := { displayname := some "José" } }
    ∧ ("José".data.all allowedChar) = false :=
  ⟨rfl, by decide⟩

/-- C10 (amended): the message body is sanitized before any handling — every
sanitized message consists only of characters from the allowed set, an input
consisting solely of other characters sanitizes to the empty string, and the
whole message pipeline (session handling, intent classification, validation
and cancellation-keyword comparison included) behaves on any body exactly as
on its sanitized form. Stored field values taken from the user message
therefore lie in the allowed set, but a value extracted from the oracle's
acceptance payload is stored verbatim and may fall outside it. -/
theorem sanitize_pipeline :
    (∀ s : String, ∀ c ∈ (sanitizeInput s).data, allowedChar c = true)
    ∧ (∀ body : String, (∀ c ∈ body.data, allowedChar c = false) → sanitizeInput body = "")
    ∧ (∀ msgFrom body : String, ∀ t : Nat, ∀ env : Env, ∀ store : Store,
        clientOnMessage msgFrom body t env store
          = clientOnMessage msgFrom (sanitizeInput body) t env store) := by
  refine ⟨sanitize_chars, ?_, ?_⟩
  · intro body h
    have hnil : body.data.filter allowedChar = [] := by
      rw [List.filter_eq_nil_iff]
      intro c hc
      rw [h c hc]
      exact Bool.false_ne_true
    show String.mk (jsTrimList (body.data.filter allowedChar)) = ""
    rw [hnil]
    rfl
  · intro f b t env store
    simp only [clientOnMessage, sanitize_idem]

/-- Witness for C10's amended theorem: the all-excluded input "()" sanitizes
to the empty string. -/
theorem sanitize_pipeline_witness :
    ("()" : String).data.all (fun c => !allowedChar c) = true
    ∧ sanitizeInput "()" = "" :=
  ⟨by decide, sanitize_pipeline.2.1 "()" (by decide)⟩
